import Mathlib

/-!
Shallow embedding of the WebRAG Assistant RAG pipeline
(`config.py`, `crawler.py`, `vector_store.py`, `llm_integration.py`,
`rag_pipeline.py`).  External collaborators (the FireCrawl scraping API, the
ChromaDB vector index, the sentence-transformer embedding model, the Groq
completion API and Python's `urllib.parse.urlparse`) are modelled as explicit
environment records of functions; any Python exception raised by a collaborator
is modelled as an `Except` error value carrying the exception message `str(e)`.
Repository code is translated function by function; `try`/`except` blocks
become `match` on the `Except` result of the guarded call.
-/

namespace WebRag

/-! ### Configuration constants, from `config.py` -/

/-- Configured maximum page count, `config.MAX_PAGES_TO_CRAWL`. -/
def MAX_PAGES_TO_CRAWL : Nat := 20

/-- Retrieval count, `config.TOP_K_RESULTS`. -/
def TOP_K_RESULTS : Nat := 8

/-- Relevance cut-off, `config.SIMILARITY_THRESHOLD` (the value 0.5, written
as the normalized rational with numerator 1 and denominator 2 so that
comparisons evaluate by kernel reduction).  Similarities are modelled as
rationals. -/
def SIMILARITY_THRESHOLD : ℚ := ⟨1, 2, by norm_num, by norm_num⟩

/-! ### Crawler model, from `crawler.py` -/

/-- Metadata dictionary attached to each document chunk
(`crawler.py`, the dict built at lines 111-116 and 157-162). -/
structure DocMeta where
  source : String
  title : String
  chunk_index : Nat
  page_index : Nat
deriving DecidableEq, Repr

/-- One document chunk as produced by `WebsiteCrawler.crawl_website`. -/
structure Doc where
  page_content : String
  metadata : DocMeta
deriving DecidableEq, Repr

/-- Result object returned by the FireCrawl `scrape_url` call.  `markdown` is
`none` when the Python object lacks a truthy-checkable `markdown` attribute;
`title` is `none` when `metadata.title` is absent. -/
structure ScrapeResult where
  markdown : Option String
  title : Option String
deriving DecidableEq, Repr

/-- Result object returned by the FireCrawl `map_url` call; `links` is `none`
when the object has no `links` attribute. -/
structure MapResult where
  links : Option (List String)
deriving DecidableEq, Repr

/-- Environment for the crawler: the FireCrawl client (`scrape`, `map_url`)
and the langchain `RecursiveCharacterTextSplitter.split_text` method, which
are external collaborators.  Errors carry the Python exception message. -/
structure CrawlEnv where
  scrape : String → Except String ScrapeResult
  map_url : String → Except String MapResult
  split_text : String → List String

/-- Chunk documents built from one page's markdown
(`crawler.py` lines 104-117 and 150-163: enumerate the split chunks and attach
source, title, chunk index and page index). -/
def pageDocs (split : String → List String) (url title md : String)
    (page_index : Nat) : List Doc :=
  (split md).enum.map (fun p => ⟨p.2, ⟨url, title, p.1, page_index⟩⟩)

/-- Documents contributed by the seed page (`crawler.py` lines 92-119): chunks
are produced only when the scrape result has a truthy `markdown`, and the
title defaults to `"Untitled"` when absent. -/
def seedDocs (env : CrawlEnv) (base_url : String) (seed : ScrapeResult) :
    List Doc :=
  match seed.markdown with
  | some md =>
      if md = "" then []
      else pageDocs env.split_text base_url (seed.title.getD "Untitled") md 0
  | none => []

/-- Documents contributed by one discovered page (`crawler.py` lines 134-169):
the per-page `try` catches any scrape failure and skips the page. -/
def scrapePageDocs (env : CrawlEnv) (url : String) (page_index : Nat) :
    List Doc :=
  match env.scrape url with
  | .error _ => []
  | .ok pr =>
      match pr.markdown with
      | some md =>
          if md = "" then []
          else pageDocs env.split_text url (pr.title.getD "Untitled") md
            page_index
      | none => []

/-- Documents contributed by the discovery phase (`crawler.py` lines 122-172):
`map_url` failure is caught and yields no extra documents; otherwise the first
`MAX_PAGES_TO_CRAWL - 1` discovered URLs are scraped in order, page index
starting at 1. -/
def crawlRest (env : CrawlEnv) (base_url : String) : List Doc :=
  match env.map_url base_url with
  | .error _ => []
  | .ok mr =>
      let additional_urls := mr.links.getD []
      ((additional_urls.take (MAX_PAGES_TO_CRAWL - 1)).enum).flatMap
        (fun p => scrapePageDocs env p.2 (p.1 + 1))

/-- `WebsiteCrawler.crawl_website` (`crawler.py` lines 63-181): the outer
`try` catches a seed-scrape failure and returns the empty list. -/
def crawl_website (env : CrawlEnv) (base_url : String) : List Doc :=
  match env.scrape base_url with
  | .error _ => []
  | .ok seed => seedDocs env base_url seed ++ crawlRest env base_url

/-! ### Vector store model, from `vector_store.py` -/

/-- One record persisted in a ChromaDB collection by `embed_documents`
(embedding vectors live in the external index and are not tracked). -/
structure VSRecord where
  id : String
  text : String
  metadata : DocMeta
deriving DecidableEq, Repr

/-- The `VectorStore` state: `collection` is `None` until
`create_collection` has been called (`vector_store.py` line 59). -/
structure VSState where
  collection : Option (List VSRecord)
deriving DecidableEq, Repr

/-- A row of a ChromaDB query answer: document text, metadata and cosine
distance, returned as parallel sequences assumed aligned. -/
structure QueryRow where
  document : String
  metadata : DocMeta
  distance : ℚ
deriving DecidableEq, Repr

/-- Environment for the vector store: the sentence-transformer `encode` call
and the ChromaDB `query` call, both external and fallible. -/
structure VSEnv where
  encode : List String → Except String Unit
  query : List VSRecord → String → Nat → Except String (List QueryRow)

/-- Environment for ChromaDB collection management: `list_collections`
together with the stored contents of each named collection. -/
structure CollectionsDB where
  list_collections : Except String (List (String × List VSRecord))

/-- Exception message of the `ValueError` raised by `embed_documents` and
`search` when no collection is selected (`vector_store.py` lines 110, 159). -/
def collection_error_msg : String :=
  "Collection not initialized. Call create_collection first."

/-- `VectorStore.create_collection` (`vector_store.py` lines 61-89): reuse the
stored collection when its name is listed, otherwise create an empty one. -/
def create_collection (db : CollectionsDB) (website_name : String) :
    Except String VSState :=
  match db.list_collections with
  | .error e => .error e
  | .ok colls =>
      match colls.lookup website_name with
      | some recs => .ok ⟨some recs⟩
      | none => .ok ⟨some []⟩

/-- Id string assigned to the document at position `i` of one
`embed_documents` call (`vector_store.py` line 116). -/
def docId (i : Nat) : String := "doc_" ++ Nat.repr i

/-- Records built by one `embed_documents` call: position `i` gets id
`doc_i` (`vector_store.py` lines 114-122). -/
def newRecords (documents : List Doc) : List VSRecord :=
  documents.enum.map (fun p => ⟨docId p.1, p.2.page_content, p.2.metadata⟩)

/-- The batch loop of `embed_documents` (`vector_store.py` lines 124-133):
records are added to the collection in slices of 100.  The fuel argument
bounds the iteration count; it is instantiated with the record count. -/
def batchAddAux : Nat → List VSRecord → List VSRecord → List VSRecord
  | 0, coll, _ => coll
  | fuel + 1, coll, recs =>
      if recs.isEmpty then coll
      else batchAddAux fuel (coll ++ recs.take 100) (recs.drop 100)

/-- Adding a record batch sequence to a collection, slices of 100 at a time. -/
def batchAdd (coll recs : List VSRecord) : List VSRecord :=
  batchAddAux recs.length coll recs

/-- `VectorStore.embed_documents` (`vector_store.py` lines 91-135): raises
`ValueError` when no collection is selected, otherwise encodes all texts in
one batch and adds the records in slices of 100. -/
def embed_documents (env : VSEnv) (st : VSState) (documents : List Doc) :
    Except String VSState :=
  match st.collection with
  | none => .error collection_error_msg
  | some coll =>
      match env.encode (documents.map (fun d => d.page_content)) with
      | .error e => .error e
      | .ok _ => .ok ⟨some (batchAdd coll (newRecords documents))⟩

/-- One retrieval result (`vector_store.py` lines 172-178). -/
structure SearchResult where
  page_content : String
  metadata : DocMeta
  similarity : ℚ
deriving DecidableEq, Repr

/-- `VectorStore.search` (`vector_store.py` lines 137-180): raises
`ValueError` when no collection is selected, otherwise queries the index and
converts each distance `d` to similarity `1 - d`. -/
def searchVS (env : VSEnv) (st : VSState) (query : String) (k : Nat) :
    Except String (List SearchResult) :=
  match st.collection with
  | none => .error collection_error_msg
  | some coll =>
      match env.query coll query k with
      | .error e => .error e
      | .ok rows =>
          .ok (rows.map (fun r => ⟨r.document, r.metadata, 1 - r.distance⟩))

/-! ### LLM integration model, from `llm_integration.py` -/

/-- Sentinel returned by `format_context` when no result passes the
similarity threshold (`llm_integration.py` line 83). -/
def no_relevant_info : String := "No relevant information found."

/-- The numbered block rendered for the document at position `i` of the
selected results (`llm_integration.py` line 99). -/
def renderBlock (i : Nat) (doc : SearchResult) : String :=
  "[Document " ++ Nat.repr (i + 1) ++ "] Title: " ++ doc.metadata.title ++
    "\nSource: " ++ doc.metadata.source ++ "\nContent: " ++ doc.page_content ++
    "\n"

/-- The relevance filter of `format_context` (`llm_integration.py` line 80):
keep a result when its similarity is at least the threshold. -/
def keepRelevant (r : SearchResult) : Bool :=
  decide (SIMILARITY_THRESHOLD ≤ r.similarity)

/-- The descending-similarity comparison used by `format_context`
(`llm_integration.py` line 86): `a` may come before `b` when `a`'s
similarity is at least `b`'s. -/
def bySimilarityDesc (a b : SearchResult) : Bool :=
  decide (b.similarity ≤ a.similarity)

/-- `LLMIntegration.format_context` (`llm_integration.py` lines 63-101):
filter by threshold, return the sentinel when nothing survives, otherwise
stable-sort by similarity descending, keep the first `TOP_K_RESULTS`, and
join the numbered blocks with newlines.  Python's `sorted` with a key and
`reverse=True` is a stable descending sort, modelled by the stable
`List.mergeSort` with the reversed comparison. -/
def format_context (results : List SearchResult) : String :=
  let filtered_results := results.filter keepRelevant
  if filtered_results.isEmpty then no_relevant_info
  else
    let sorted_results := filtered_results.mergeSort bySimilarityDesc
    let top_results := sorted_results.take TOP_K_RESULTS
    String.intercalate "\n" (top_results.enum.map (fun p => renderBlock p.1 p.2))

/-- The prompt built by `LLMIntegration.get_answer`
(`llm_integration.py` lines 123-134). -/
def buildPrompt (query context : String) : String :=
  "You are an AI assistant that answers questions about website content.\n" ++
  "Use ONLY the following context to answer the question. \n" ++
  "If the information is in the context, provide a detailed and helpful answer.\n" ++
  "If the question cannot be answered from the context, say \"Based on the available information, I cannot provide a complete answer to that question.\"\n" ++
  "DO NOT make up or hallucinate any information not present in the context.\n\nCONTEXT:\n" ++
  context ++ "\n\nQUESTION: " ++ query ++ "\n\nANSWER:"

/-- `LLMIntegration.get_answer` (`llm_integration.py` lines 103-145): builds
the prompt and calls the completion service; a service failure propagates. -/
def get_answer (complete : String → Except String String)
    (query context : String) : Except String String :=
  complete (buildPrompt query context)

/-! ### Orchestrator model, from `rag_pipeline.py` -/

/-- Scan a character list for the first `"//"` occurrence, returning the text
before and after it; this is where `urllib.parse` separates the scheme part
from the netloc. -/
def breakOnDoubleSlash : List Char → Option (List Char × List Char)
  | [] => none
  | '/' :: '/' :: rest => some ([], rest)
  | c :: rest =>
      match breakOnDoubleSlash rest with
      | none => none
      | some p => some (c :: p.1, p.2)

/-- Model of `urllib.parse.urlparse(url).netloc` for URLs of the standard
`scheme://netloc/...` shape: the text between the first `"//"` (when it
starts the string or follows the scheme colon) and the next `'/'`, `'?'` or
`'#'`.  The netloc is returned verbatim, letter case included. -/
def urlparseNetloc (url : String) : String :=
  match breakOnDoubleSlash url.toList with
  | none => ""
  | some (pre, rest) =>
      if pre = [] ∨ pre.getLast? = some ':' then
        (rest.takeWhile
          (fun c => !(c == '/') && !(c == '?') && !(c == '#'))).asString
      else ""

/-- `RAGPipeline.extract_website_name` (`rag_pipeline.py` lines 61-75):
the parsed netloc with every `'.'` replaced by `'_'`.  The single-character
`str.replace(".", "_")` is modelled as a character map. -/
def extract_website_name (url : String) : String :=
  ((urlparseNetloc url).toList.map (fun c => if c = '.' then '_' else c)).asString

/-- The orchestrator state (`rag_pipeline.py` lines 57-59) together with the
vector-store state it owns. -/
structure RAGState where
  initialized : Bool
  website_url : Option String
  vs : VSState
deriving DecidableEq, Repr

/-- Environment for the whole pipeline: crawler, collection DB, vector-store
collaborators and the completion service. -/
structure RAGEnv where
  crawl : CrawlEnv
  db : CollectionsDB
  vse : VSEnv
  complete : String → Except String String

/-- `RAGPipeline.initialize` (`rag_pipeline.py` lines 77-112): stores the
URL, selects the collection, crawls, embeds, and only then sets
`initialized`.  Any exception from collection creation or embedding leaves
the function with an error result and the state reached so far. -/
def initializeWebsite (env : RAGEnv) (st : RAGState) (website_url : String) :
    RAGState × Except String Unit :=
  let st1 : RAGState := { st with website_url := some website_url }
  let website_name := extract_website_name website_url
  match create_collection env.db website_name with
  | .error e => (st1, .error e)
  | .ok vs1 =>
      let documents := crawl_website env.crawl website_url
      match embed_documents env.vse vs1 documents with
      | .error e => ({ st1 with vs := vs1 }, .error e)
      | .ok vs2 => ({ st1 with vs := vs2, initialized := true }, .ok ())

/-- Fixed response message when `answer_question` is called before
initialization (`rag_pipeline.py` line 134). -/
def please_init_msg : String :=
  "Please initialize the RAG pipeline with a website URL first."

/-- The dictionary returned by `RAGPipeline.answer_question`. -/
structure AnswerResponse where
  answer : String
  context : Option (List SearchResult)
  success : Bool
deriving DecidableEq, Repr

/-- `RAGPipeline.answer_question` (`rag_pipeline.py` lines 114-162): a fixed
structured failure when uninitialized; otherwise search, format and generate
inside a `try` whose handler converts the exception message into a
structured failure. -/
def answer_question (env : RAGEnv) (st : RAGState) (query : String) :
    AnswerResponse :=
  if !st.initialized then ⟨please_init_msg, none, false⟩
  else
    match searchVS env.vse st.vs query 8 with
    | .error e => ⟨"An error occurred: " ++ e, none, false⟩
    | .ok search_results =>
        let context := format_context search_results
        match get_answer env.complete query context with
        | .error e => ⟨"An error occurred: " ++ e, none, false⟩
        | .ok answer => ⟨answer, some search_results, true⟩

/-! ### Concrete collaborator environments used by witnesses -/

/-- A collaborator environment in which every external call succeeds with a
fixed trivial value. -/
def trivialEnv : RAGEnv where
  crawl := ⟨fun _ => .ok ⟨some "md", some "T"⟩, fun _ => .ok ⟨some []⟩,
    fun s => [s]⟩
  db := ⟨.ok []⟩
  vse := ⟨fun _ => .ok (), fun _ _ _ => .ok []⟩
  complete := fun _ => .ok "answer text"

/-- A collaborator environment whose collection listing raises. -/
def failDbEnv : RAGEnv where
  crawl := ⟨fun _ => .ok ⟨some "md", some "T"⟩, fun _ => .ok ⟨some []⟩,
    fun s => [s]⟩
  db := ⟨.error "db unavailable"⟩
  vse := ⟨fun _ => .ok (), fun _ _ _ => .ok []⟩
  complete := fun _ => .ok "answer text"

/-- A collaborator environment in which every seed scrape raises while every
other collaborator succeeds. -/
def seedFailEnv : RAGEnv where
  crawl := ⟨fun _ => .error "fetch failed", fun _ => .ok ⟨some []⟩,
    fun s => [s]⟩
  db := ⟨.ok []⟩
  vse := ⟨fun _ => .ok (), fun _ _ _ => .ok []⟩
  complete := fun _ => .ok "generated answer"

/-- A crawler environment whose seed scrape succeeds with text split into two
chunks and whose discovery call raises. -/
def mapFailCrawlEnv : CrawlEnv where
  scrape := fun _ => .ok ⟨some "chunk one chunk two", some "Title"⟩
  map_url := fun _ => .error "mapping failed"
  split_text := fun _ => ["chunk one", "chunk two"]

/-! ### C7 -/

/-- C7: `search` or `embed_documents` called before any collection has been
selected returns the deliberate precondition `ValueError` with its fixed
message, for every environment — so no query or store operation is ever
attempted. -/
theorem c7_precondition_error (venv : VSEnv) (st : VSState) (q : String)
    (k : Nat) (documents : List Doc) (h : st.collection = none) :
    searchVS venv st q k = .error collection_error_msg ∧
    embed_documents venv st documents = .error collection_error_msg := by
  constructor <;> simp [searchVS, embed_documents, h]

theorem c7_precondition_error_witness :
    searchVS ⟨fun _ => .ok (), fun _ _ _ => .ok []⟩ ⟨none⟩ "q" 8 =
      .error collection_error_msg ∧
    embed_documents ⟨fun _ => .ok (), fun _ _ _ => .ok []⟩ ⟨none⟩ [] =
      .error collection_error_msg :=
  c7_precondition_error ⟨fun _ => .ok (), fun _ _ _ => .ok []⟩ ⟨none⟩ "q" 8 []
    rfl

/-! ### C2 -/

/-- C2: `answer_question` always returns a structured response and never lets
an exception escape: while uninitialized it returns the fixed
please-initialize failure, and while initialized it returns either a success
carrying the raw search results or a structured failure built from the caught
exception message. -/
theorem c2_answer_question_never_raises (env : RAGEnv) (st : RAGState)
    (query : String) :
    (st.initialized = false →
      answer_question env st query = ⟨please_init_msg, none, false⟩) ∧
    (st.initialized = true →
      (∃ search_results answer,
        answer_question env st query = ⟨answer, some search_results, true⟩) ∨
      (∃ e, answer_question env st query =
        ⟨"An error occurred: " ++ e, none, false⟩)) := by
  constructor
  · intro h; simp [answer_question, h]
  · intro h
    cases hs : searchVS env.vse st.vs query 8 with
    | error e => exact .inr ⟨e, by simp [answer_question, h, hs]⟩
    | ok rs =>
        cases ha : get_answer env.complete query (format_context rs) with
        | error e => exact .inr ⟨e, by simp [answer_question, h, hs, ha]⟩
        | ok ans => exact .inl ⟨rs, ans, by simp [answer_question, h, hs, ha]⟩

theorem c2_answer_question_never_raises_witness :
    answer_question trivialEnv ⟨false, none, ⟨none⟩⟩ "q" =
      ⟨please_init_msg, none, false⟩ :=
  (c2_answer_question_never_raises trivialEnv ⟨false, none, ⟨none⟩⟩ "q").1 rfl

/-! ### C10 -/

/-- C10: when `initialize` fails (collection creation or embedding raising),
the `initialized` flag keeps its prior value but `website_url` has already
been overwritten with the new URL. -/
theorem c10_failed_init_frame (env : RAGEnv) (st : RAGState)
    (url e : String) (h : (initializeWebsite env st url).2 = .error e) :
    (initializeWebsite env st url).1.initialized = st.initialized ∧
    (initializeWebsite env st url).1.website_url = some url := by
  cases hc : create_collection env.db (extract_website_name url) with
  | error e' => simp [initializeWebsite, hc]
  | ok vs1 =>
      cases he : embed_documents env.vse vs1 (crawl_website env.crawl url) with
      | error e' => simp [initializeWebsite, hc, he]
      | ok vs2 => simp [initializeWebsite, hc, he] at h

theorem c10_failed_init_frame_witness :
    (initializeWebsite failDbEnv ⟨false, none, ⟨none⟩⟩
        "http://example.com").1.initialized = false ∧
    (initializeWebsite failDbEnv ⟨false, none, ⟨none⟩⟩
        "http://example.com").1.website_url = some "http://example.com" :=
  c10_failed_init_frame failDbEnv ⟨false, none, ⟨none⟩⟩ "http://example.com"
    "db unavailable" rfl

/-! ### C8 -/

/-- C8: when the discovery (site-mapping) call raises but the seed scrape
succeeded, `crawl_website` returns exactly the seed page's chunks — the
failure is non-fatal and the seed chunks are neither discarded nor altered. -/
theorem c8_discovery_failure_nonfatal (env : CrawlEnv) (base_url : String)
    (seed : ScrapeResult) (hseed : env.scrape base_url = .ok seed)
    (e : String) (hmap : env.map_url base_url = .error e) :
    crawl_website env base_url = seedDocs env base_url seed := by
  simp [crawl_website, crawlRest, hseed, hmap]

theorem c8_discovery_failure_nonfatal_witness :
    crawl_website mapFailCrawlEnv "https://site.example" =
      seedDocs mapFailCrawlEnv "https://site.example"
        ⟨some "chunk one chunk two", some "Title"⟩ ∧
    (seedDocs mapFailCrawlEnv "https://site.example"
        ⟨some "chunk one chunk two", some "Title"⟩).length = 2 :=
  ⟨c8_discovery_failure_nonfatal mapFailCrawlEnv "https://site.example" _ rfl
    "mapping failed" rfl, rfl⟩

/-! ### C1 -/

/-- C1 is false on the code: with a seed fetch that raises, `crawl_website`
swallows the error and returns no chunks, `initialize` returns successfully,
the state becomes initialized, and the next `answer_question` proceeds to a
successful generated answer instead of the please-initialize failure. -/
theorem c1_counterexample :
    (initializeWebsite seedFailEnv ⟨false, none, ⟨none⟩⟩
        "http://site.example").2 = .ok () ∧
    (initializeWebsite seedFailEnv ⟨false, none, ⟨none⟩⟩
        "http://site.example").1.initialized = true ∧
    answer_question seedFailEnv
        (initializeWebsite seedFailEnv ⟨false, none, ⟨none⟩⟩
          "http://site.example").1 "q" =
      ⟨"generated answer", some [], true⟩ :=
  ⟨rfl, rfl, rfl⟩

/-- C1 amended: when the seed fetch raises, the crawler catches the error and
returns no chunks, so `initialize` does not propagate a crawl error; whenever
the remaining steps succeed, it ends with `initialized = true` (and a
subsequent `answer_question` is not the please-initialize failure). -/
theorem c1_amended_seed_failure (env : RAGEnv) (st : RAGState)
    (url e : String) (hs : env.crawl.scrape url = .error e) :
    crawl_website env.crawl url = [] ∧
    ((initializeWebsite env st url).2.isOk = true →
      (initializeWebsite env st url).1.initialized = true) := by
  have hcw : crawl_website env.crawl url = [] := by simp [crawl_website, hs]
  refine ⟨hcw, ?_⟩
  intro hok
  cases hc : create_collection env.db (extract_website_name url) with
  | error e' => simp [initializeWebsite, hc, Except.isOk, Except.toBool] at hok
  | ok vs1 =>
      cases he : embed_documents env.vse vs1 (crawl_website env.crawl url) with
      | error e' =>
          simp [initializeWebsite, hc, he, Except.isOk, Except.toBool] at hok
      | ok vs2 => simp [initializeWebsite, hc, he]

theorem c1_amended_seed_failure_witness :
    crawl_website seedFailEnv.crawl "http://site.example" = [] ∧
    ((initializeWebsite seedFailEnv ⟨false, none, ⟨none⟩⟩
        "http://site.example").2.isOk = true →
      (initializeWebsite seedFailEnv ⟨false, none, ⟨none⟩⟩
        "http://site.example").1.initialized = true) :=
  c1_amended_seed_failure seedFailEnv ⟨false, none, ⟨none⟩⟩
    "http://site.example" "fetch failed" rfl

/-! ### C4 -/

/-- Case-folding of a string, used to state that two hostnames agree up to
letter case. -/
def caseFold (s : String) : String := (s.toList.map Char.toLower).asString

/-- C4 is false on the code: `extract_website_name` uses the urlparse
`netloc`, which is not lowercased, so two URLs whose hostnames agree up to
letter case map to different collection keys. -/
theorem c4_counterexample :
    caseFold (urlparseNetloc "http://Example.com") =
      caseFold (urlparseNetloc "http://example.com") ∧
    extract_website_name "http://Example.com" = "Example_com" ∧
    extract_website_name "http://example.com" = "example_com" ∧
    extract_website_name "http://Example.com" ≠
      extract_website_name "http://example.com" :=
  ⟨by decide, by decide, by decide, by decide⟩

/-- C4 amended: the site identifier is derived deterministically from the
URL's netloc — with its letter case preserved, not lowercased — by replacing
dots with underscores, so any two URLs with literally equal netlocs map to
the same collection key. -/
theorem c4_amended_netloc_determinism (u1 u2 : String)
    (h : urlparseNetloc u1 = urlparseNetloc u2) :
    extract_website_name u1 = extract_website_name u2 := by
  simp [extract_website_name, h]

theorem c4_amended_netloc_determinism_witness :
    extract_website_name "http://example.com" =
      extract_website_name "http://example.com/docs/page?q=1" :=
  c4_amended_netloc_determinism "http://example.com"
    "http://example.com/docs/page?q=1" (by decide)

/-! ### Decimal rendering of natural numbers

The id strings `doc_i` use `Nat.repr`.  The following lemmas connect the
fuelled `Nat.toDigitsCore` with `Nat.digits` and derive that `Nat.repr` is
injective, which the C5 analysis needs. -/

theorem digitChar_inj_fin (a b : Fin 10)
    (h : Nat.digitChar a.val = Nat.digitChar b.val) : a = b := by
  revert h; revert a b; decide

theorem map_digitChar_inj :
    ∀ (l1 l2 : List Nat), (∀ a ∈ l1, a < 10) → (∀ a ∈ l2, a < 10) →
      l1.map Nat.digitChar = l2.map Nat.digitChar → l1 = l2
  | [], [], _, _, _ => rfl
  | [], _ :: _, _, _, h => by simp at h
  | _ :: _, [], _, _, h => by simp at h
  | a :: l1, b :: l2, h1, h2, h => by
      simp only [List.map_cons, List.cons.injEq] at h
      have ha : a < 10 := h1 a (by simp)
      have hb : b < 10 := h2 b (by simp)
      have hab : a = b :=
        congrArg Fin.val (digitChar_inj_fin ⟨a, ha⟩ ⟨b, hb⟩ h.1)
      rw [hab,
        map_digitChar_inj l1 l2 (fun x hx => h1 x (by simp [hx]))
          (fun x hx => h2 x (by simp [hx])) h.2]

theorem toDigitsCore_eq_digits (fuel : Nat) :
    ∀ (n : Nat) (ds : List Char), 0 < n → n < fuel →
      Nat.toDigitsCore 10 fuel n ds =
        ((Nat.digits 10 n).map Nat.digitChar).reverse ++ ds := by
  induction fuel with
  | zero => intro n ds h1 h2; omega
  | succ fuel ih =>
      intro n ds h1 h2
      rw [Nat.toDigitsCore]
      by_cases h10 : n / 10 = 0
      · have hn10 : n < 10 := (Nat.div_eq_zero_iff (by norm_num)).mp h10
        rw [Nat.digits_def' (by norm_num : (1:ℕ) < 10) h1, h10]
        simp
      · have hlt : n / 10 < fuel := by
          have := Nat.div_lt_self h1 (by norm_num : (1:ℕ) < 10)
          omega
        simp only [h10, if_false]
        rw [ih (n / 10) _ (Nat.pos_of_ne_zero h10) hlt,
          Nat.digits_def' (by norm_num : (1:ℕ) < 10) h1]
        simp

theorem asString_inj (l1 l2 : List Char) (h : l1.asString = l2.asString) :
    l1 = l2 :=
  congrArg String.data h

theorem reprNat_eq_digits (n : Nat) (h : 0 < n) :
    Nat.repr n = (((Nat.digits 10 n).map Nat.digitChar).reverse).asString := by
  show (Nat.toDigitsCore 10 (n + 1) n []).asString = _
  rw [toDigitsCore_eq_digits (n + 1) n [] h (by omega)]
  simp

theorem reprNat_pos_ne_zero_str (n : Nat) (h : 0 < n) :
    Nat.repr n ≠ "0" := by
  intro hc
  rw [reprNat_eq_digits n h] at hc
  have hdata := asString_inj _ _ hc
  have hrev : (Nat.digits 10 n).map Nat.digitChar = ['0'] := by
    have := congrArg List.reverse hdata
    simpa using this
  have hdig : Nat.digits 10 n = [0] := by
    apply map_digitChar_inj _ [0]
      (fun a ha => Nat.digits_lt_base (by norm_num) ha) (by simp)
    simpa using hrev
  have hof := Nat.ofDigits_digits 10 n
  rw [hdig] at hof
  simp [Nat.ofDigits] at hof
  omega

theorem reprNat_injective : Function.Injective Nat.repr := by
  intro m n h
  rcases Nat.eq_zero_or_pos m with hm | hm <;>
    rcases Nat.eq_zero_or_pos n with hn | hn
  · omega
  · exact absurd h.symm (by subst hm; exact reprNat_pos_ne_zero_str n hn)
  · exact absurd h (by subst hn; exact reprNat_pos_ne_zero_str m hm)
  · rw [reprNat_eq_digits m hm, reprNat_eq_digits n hn] at h
    have hdata := asString_inj _ _ h
    have hrev := congrArg List.reverse hdata
    simp only [List.reverse_reverse] at hrev
    have hdig := map_digitChar_inj _ _
      (fun a ha => Nat.digits_lt_base (by norm_num) ha)
      (fun a ha => Nat.digits_lt_base (by norm_num) ha) hrev
    exact Nat.digits_inj_iff.mp hdig

theorem docId_injective : Function.Injective docId := by
  intro m n h
  apply reprNat_injective
  have hd := congrArg String.data h
  simp only [docId, String.data_append] at hd
  exact String.ext (List.append_cancel_left hd)

/-! ### C5 -/

/-- A vector-store environment whose collaborators always succeed. -/
def okVSEnv : VSEnv := ⟨fun _ => .ok (), fun _ _ _ => .ok []⟩

/-- First document embedded in the C5 scenario. -/
def docA : Doc := ⟨"alpha text", ⟨"http://a.example", "A", 0, 0⟩⟩

/-- Second, different document embedded in the C5 scenario. -/
def docB : Doc := ⟨"beta text", ⟨"http://b.example", "B", 0, 0⟩⟩

/-- C5 is false on the code: `embed_documents` numbers ids from `doc_0` on
every call, so a second call on the same collection assigns the already-used
id `doc_0` to a different document, and the resulting collection holds
duplicate ids rather than appended fresh ones. -/
theorem c5_counterexample :
    embed_documents okVSEnv ⟨some []⟩ [docA] =
      .ok ⟨some [⟨"doc_0", "alpha text", docA.metadata⟩]⟩ ∧
    embed_documents okVSEnv ⟨some [⟨"doc_0", "alpha text", docA.metadata⟩]⟩
        [docB] =
      .ok ⟨some [⟨"doc_0", "alpha text", docA.metadata⟩,
        ⟨"doc_0", "beta text", docB.metadata⟩]⟩ ∧
    docA ≠ docB ∧
    ¬ (([⟨"doc_0", "alpha text", docA.metadata⟩,
        ⟨"doc_0", "beta text", docB.metadata⟩] : List VSRecord).map
          (fun r => r.id)).Nodup :=
  ⟨rfl, rfl, by decide, by decide⟩

/-- C5 amended: within a single `embed_documents` call the assigned ids are
pairwise distinct, namely `doc_0` … `doc_{n-1}`; the id sequence depends only
on the batch length, so every call restarts at `doc_0` and repeated calls on
one collection reuse ids for different documents instead of appending fresh
ones. -/
theorem c5_amended_batch_ids (documents : List Doc) :
    ((newRecords documents).map (fun r => r.id)).Nodup ∧
    (newRecords documents).map (fun r => r.id) =
      (List.range documents.length).map docId := by
  have hids : (newRecords documents).map (fun r => r.id) =
      (List.range documents.length).map docId := by
    calc (newRecords documents).map (fun r => r.id)
        = documents.enum.map (fun p => docId p.1) := by
          simp [newRecords, List.map_map]
      _ = (documents.enum.map Prod.fst).map docId := by
          rw [List.map_map]; rfl
      _ = (List.range documents.length).map docId := by
          rw [List.enum_map_fst]
  exact ⟨hids ▸ List.Nodup.map docId_injective (List.nodup_range _), hids⟩

/-! ### C6 -/

/-- The pair the C6 invariant is about. -/
def docKey (d : Doc) : String × Nat := (d.metadata.source, d.metadata.chunk_index)

/-- The discovered URL list actually iterated by the crawler: empty when
mapping failed, otherwise the `links` attribute truncated to the page
limit. -/
def discoveredUrls (env : CrawlEnv) (base_url : String) : List String :=
  match env.map_url base_url with
  | .error _ => []
  | .ok mr => (mr.links.getD []).take (MAX_PAGES_TO_CRAWL - 1)

theorem crawlRest_eq (env : CrawlEnv) (base_url : String) :
    crawlRest env base_url =
      (discoveredUrls env base_url).enum.flatMap
        (fun p => scrapePageDocs env p.2 (p.1 + 1)) := by
  unfold crawlRest discoveredUrls
  cases env.map_url base_url with
  | error e => simp
  | ok mr => rfl

theorem keys_pageDocs (split : String → List String) (url t md : String)
    (pi : Nat) :
    (pageDocs split url t md pi).map docKey =
      (List.range (split md).length).map (fun i => (url, i)) := by
  calc (pageDocs split url t md pi).map docKey
      = (split md).enum.map (fun p => (url, p.1)) := by
        simp [pageDocs, List.map_map, docKey]
    _ = ((split md).enum.map Prod.fst).map (fun i => (url, i)) := by
        rw [List.map_map]; rfl
    _ = (List.range (split md).length).map (fun i => (url, i)) := by
        rw [List.enum_map_fst]

theorem pageDocs_keys_nodup (split : String → List String) (url t md : String)
    (pi : Nat) : ((pageDocs split url t md pi).map docKey).Nodup := by
  rw [keys_pageDocs]
  exact List.Nodup.map (fun a b h => by simpa using h) (List.nodup_range _)

theorem pageDocs_keys_fst (split : String → List String) (url t md : String)
    (pi : Nat) :
    ∀ k ∈ (pageDocs split url t md pi).map docKey, k.1 = url := by
  rw [keys_pageDocs]
  intro k hk
  simp only [List.mem_map] at hk
  obtain ⟨i, _, rfl⟩ := hk
  rfl

theorem scrapePageDocs_keys_nodup (env : CrawlEnv) (url : String) (pi : Nat) :
    ((scrapePageDocs env url pi).map docKey).Nodup := by
  unfold scrapePageDocs
  cases env.scrape url with
  | error e => simp
  | ok pr =>
      cases hm : pr.markdown with
      | none => simp [hm]
      | some md =>
          by_cases hmd : md = ""
          · simp [hm, hmd]
          · simpa [hm, hmd] using pageDocs_keys_nodup env.split_text url
              (pr.title.getD "Untitled") md pi

theorem scrapePageDocs_keys_fst (env : CrawlEnv) (url : String) (pi : Nat) :
    ∀ k ∈ (scrapePageDocs env url pi).map docKey, k.1 = url := by
  unfold scrapePageDocs
  cases env.scrape url with
  | error e => simp
  | ok pr =>
      cases hm : pr.markdown with
      | none => simp [hm]
      | some md =>
          by_cases hmd : md = ""
          · simp [hm, hmd]
          · simpa [hm, hmd] using pageDocs_keys_fst env.split_text url
              (pr.title.getD "Untitled") md pi

theorem seedDocs_keys_nodup (env : CrawlEnv) (base_url : String)
    (seed : ScrapeResult) : ((seedDocs env base_url seed).map docKey).Nodup := by
  unfold seedDocs
  cases hm : seed.markdown with
  | none => simp [hm]
  | some md =>
      by_cases hmd : md = ""
      · simp [hm, hmd]
      · simpa [hm, hmd] using pageDocs_keys_nodup env.split_text base_url
          (seed.title.getD "Untitled") md 0

theorem seedDocs_keys_fst (env : CrawlEnv) (base_url : String)
    (seed : ScrapeResult) :
    ∀ k ∈ (seedDocs env base_url seed).map docKey, k.1 = base_url := by
  unfold seedDocs
  cases hm : seed.markdown with
  | none => simp [hm]
  | some md =>
      by_cases hmd : md = ""
      · simp [hm, hmd]
      · simpa [hm, hmd] using pageDocs_keys_fst env.split_text base_url
          (seed.title.getD "Untitled") md 0

theorem crawlRest_keys_fst (env : CrawlEnv) (base_url : String) :
    ∀ k ∈ (crawlRest env base_url).map docKey,
      k.1 ∈ discoveredUrls env base_url := by
  rw [crawlRest_eq, List.map_flatMap]
  intro k hk
  simp only [List.mem_flatMap] at hk
  obtain ⟨p, hp, hk2⟩ := hk
  rw [scrapePageDocs_keys_fst env p.2 (p.1 + 1) k hk2]
  have : p.2 ∈ (discoveredUrls env base_url).enum.map Prod.snd :=
    List.mem_map_of_mem Prod.snd hp
  rwa [List.enum_map_snd] at this

theorem crawlRest_keys_nodup (env : CrawlEnv) (base_url : String)
    (h : (discoveredUrls env base_url).Nodup) :
    ((crawlRest env base_url).map docKey).Nodup := by
  rw [crawlRest_eq, List.map_flatMap]
  unfold List.flatMap
  rw [List.nodup_flatten]
  constructor
  · intro l hl
    simp only [List.mem_map] at hl
    obtain ⟨p, _, rfl⟩ := hl
    exact scrapePageDocs_keys_nodup env p.2 (p.1 + 1)
  · rw [List.pairwise_map]
    have hsnd : (discoveredUrls env base_url).enum.Pairwise
        (fun p q => p.2 ≠ q.2) := by
      have h2 : ((discoveredUrls env base_url).enum.map Prod.snd).Nodup := by
        rwa [List.enum_map_snd]
      exact List.pairwise_map.mp h2
    refine hsnd.imp ?_
    intro p q hne k hk1 hk2
    exact hne ((scrapePageDocs_keys_fst env p.2 (p.1 + 1) k hk1) ▸
      (scrapePageDocs_keys_fst env q.2 (q.1 + 1) k hk2) ▸ rfl)

/-- A crawler environment whose discovery call returns the seed URL itself
among the mapped links, so the seed page is chunked twice. -/
def seedRepeatCrawlEnv : CrawlEnv where
  scrape := fun _ => .ok ⟨some "page text", some "T"⟩
  map_url := fun u => .ok ⟨some [u]⟩
  split_text := fun _ => ["page text"]

/-- C6 is false on the code: when the mapping step returns URLs that include
the seed URL, the seed page is processed again with chunk indices restarting
at 0, so two chunks of one crawl carry the same `(source_url, chunk_index)`
pair. -/
theorem c6_counterexample :
    ¬ (((crawl_website seedRepeatCrawlEnv "http://site.example").map
      docKey).Nodup) := by
  decide

/-- C6 amended: `(source_url, chunk_index)` is unique across the chunks of a
crawl provided the discovered URL list (as truncated to the page limit)
contains no duplicates and does not contain the seed URL; when the mapping
step returns the seed URL among the links, the pair is duplicated. -/
theorem c6_amended_key_uniqueness (env : CrawlEnv) (base_url : String)
    (hnodup : (discoveredUrls env base_url).Nodup)
    (hbase : base_url ∉ discoveredUrls env base_url) :
    ((crawl_website env base_url).map docKey).Nodup := by
  cases hscrape : env.scrape base_url with
  | error e => simp [crawl_website, hscrape]
  | ok seed =>
      have hcw : crawl_website env base_url =
          seedDocs env base_url seed ++ crawlRest env base_url := by
        simp [crawl_website, hscrape]
      rw [hcw, List.map_append]
      refine List.Nodup.append (seedDocs_keys_nodup env base_url seed)
        (crawlRest_keys_nodup env base_url hnodup) ?_
      intro k hk1 hk2
      have e1 := seedDocs_keys_fst env base_url seed k hk1
      have h2 := crawlRest_keys_fst env base_url k hk2
      rw [e1] at h2
      exact hbase h2

/-- A crawler environment that discovers one distinct subpage. -/
def twoPageCrawlEnv : CrawlEnv where
  scrape := fun _ => .ok ⟨some "page text", some "T"⟩
  map_url := fun _ => .ok ⟨some ["http://site.example/sub"]⟩
  split_text := fun _ => ["page text"]

theorem c6_amended_key_uniqueness_witness :
    ((crawl_website twoPageCrawlEnv "http://site.example").map docKey).Nodup :=
  c6_amended_key_uniqueness twoPageCrawlEnv "http://site.example" (by decide)
    (by decide)

/-! ### C3 -/

theorem bySimilarityDesc_trans : ∀ (a b c : SearchResult),
    bySimilarityDesc a b → bySimilarityDesc b c → bySimilarityDesc a c := by
  intro a b c hab hbc
  simp only [bySimilarityDesc, decide_eq_true_eq] at *
  exact le_trans hbc hab

theorem bySimilarityDesc_total : ∀ (a b : SearchResult),
    bySimilarityDesc a b || bySimilarityDesc b a := by
  intro a b
  simp only [bySimilarityDesc, Bool.or_eq_true, decide_eq_true_eq]
  exact le_total b.similarity a.similarity

/-- C3: `format_context` drops exactly the results below the threshold; when
none survive it returns the fixed sentinel, and otherwise its output renders,
as numbered title/source/content blocks joined by newlines, the first
`TOP_K_RESULTS` elements of a descending-similarity ordering of the
survivors. -/
theorem c3_format_context_spec (results : List SearchResult) :
    (∀ r : SearchResult, r ∈ results.filter keepRelevant ↔
      r ∈ results ∧ ¬ r.similarity < SIMILARITY_THRESHOLD) ∧
    (results.filter keepRelevant = [] →
      format_context results = no_relevant_info) ∧
    (results.filter keepRelevant ≠ [] →
      ∃ sorted_results : List SearchResult,
        sorted_results.Perm (results.filter keepRelevant) ∧
        sorted_results.Pairwise
          (fun a b => b.similarity ≤ a.similarity) ∧
        format_context results =
          String.intercalate "\n"
            (((sorted_results.take TOP_K_RESULTS).enum).map
              (fun p => renderBlock p.1 p.2))) := by
  refine ⟨?_, ?_, ?_⟩
  · intro r
    simp [List.mem_filter, keepRelevant, not_lt]
  · intro h
    simp [format_context, h]
  · intro h
    refine ⟨(results.filter keepRelevant).mergeSort bySimilarityDesc,
      List.mergeSort_perm _ _, ?_, ?_⟩
    · exact (List.sorted_mergeSort bySimilarityDesc_trans bySimilarityDesc_total
        (results.filter keepRelevant)).imp
          (fun hab => by
            simpa [bySimilarityDesc, decide_eq_true_eq] using hab)
    · simp only [format_context]
      rw [if_neg (by simpa [List.isEmpty_iff] using h)]

theorem c3_format_context_spec_witness :
    format_context
        [⟨"low text", ⟨"http://a.example", "A", 0, 0⟩,
          ⟨3, 10, by norm_num, by norm_num⟩⟩] = no_relevant_info :=
  (c3_format_context_spec
    [⟨"low text", ⟨"http://a.example", "A", 0, 0⟩,
      ⟨3, 10, by norm_num, by norm_num⟩⟩]).2.1 (by decide)

/-! ### C9 -/

theorem pairwise_strict_of_sorted_nodup (l : List SearchResult)
    (hs : l.Pairwise (fun a b => b.similarity ≤ a.similarity))
    (hn : (l.map (fun r => r.similarity)).Nodup) :
    l.Pairwise (fun a b => b.similarity < a.similarity) := by
  have hne : l.Pairwise (fun a b => a.similarity ≠ b.similarity) :=
    List.pairwise_map.mp hn
  exact (hs.and hne).imp (fun h => lt_of_le_of_ne h.1 (Ne.symm h.2))

theorem mergeSort_bySimilarityDesc_pairwise (l : List SearchResult) :
    (l.mergeSort bySimilarityDesc).Pairwise
      (fun a b => b.similarity ≤ a.similarity) :=
  (List.sorted_mergeSort bySimilarityDesc_trans bySimilarityDesc_total l).imp
    (fun hab => by simpa [bySimilarityDesc, decide_eq_true_eq] using hab)

/-- C9: on an input that is already entirely above the threshold and whose
similarities are pairwise distinct, `format_context` is invariant under
re-ordering of the input list. -/
theorem c9_format_context_perm_invariant (l1 l2 : List SearchResult)
    (hperm : l1.Perm l2)
    (hthr : ∀ r ∈ l1, SIMILARITY_THRESHOLD ≤ r.similarity)
    (hnodup : (l1.map (fun r => r.similarity)).Nodup) :
    format_context l1 = format_context l2 := by
  have hf1 : l1.filter keepRelevant = l1 :=
    List.filter_eq_self.mpr
      (fun r hr => by simp [keepRelevant, hthr r hr])
  have hf2 : l2.filter keepRelevant = l2 :=
    List.filter_eq_self.mpr
      (fun r hr => by simp [keepRelevant, hthr r (hperm.mem_iff.mpr hr)])
  by_cases hnil : l1 = []
  · subst hnil
    have : l2 = [] := hperm.symm.eq_nil
    subst this
    rfl
  · have h2nil : l2 ≠ [] := by
      intro hc
      rw [hc] at hperm
      exact hnil hperm.eq_nil
    have hnodup2 : (l2.map (fun r => r.similarity)).Nodup :=
      (hperm.map (fun r => r.similarity)).nodup_iff.mp hnodup
    haveI : IsAntisymm SearchResult
        (fun a b => b.similarity < a.similarity) :=
      ⟨fun a b h1 h2 => absurd (lt_trans h1 h2) (lt_irrefl _)⟩
    have hseq : l1.mergeSort bySimilarityDesc = l2.mergeSort bySimilarityDesc := by
      apply List.eq_of_perm_of_sorted
        (r := fun a b => b.similarity < a.similarity)
      · exact (List.mergeSort_perm l1 _).trans
          (hperm.trans (List.mergeSort_perm l2 _).symm)
      · exact pairwise_strict_of_sorted_nodup _
          (mergeSort_bySimilarityDesc_pairwise l1)
          (((List.mergeSort_perm l1 bySimilarityDesc).map
            (fun r => r.similarity)).nodup_iff.mpr hnodup)
      · exact pairwise_strict_of_sorted_nodup _
          (mergeSort_bySimilarityDesc_pairwise l2)
          (((List.mergeSort_perm l2 bySimilarityDesc).map
            (fun r => r.similarity)).nodup_iff.mpr hnodup2)
    have e1 : format_context l1 =
        String.intercalate "\n"
          (((l1.mergeSort bySimilarityDesc).take TOP_K_RESULTS).enum.map
            (fun p => renderBlock p.1 p.2)) := by
      simp only [format_context, hf1]
      rw [if_neg (by simpa [List.isEmpty_iff] using hnil)]
    have e2 : format_context l2 =
        String.intercalate "\n"
          (((l2.mergeSort bySimilarityDesc).take TOP_K_RESULTS).enum.map
            (fun p => renderBlock p.1 p.2)) := by
      simp only [format_context, hf2]
      rw [if_neg (by simpa [List.isEmpty_iff] using h2nil)]
    rw [e1, e2, hseq]

theorem c9_format_context_perm_invariant_witness :
    format_context
        [⟨"high text", ⟨"http://a.example", "A", 0, 0⟩,
          ⟨9, 10, by norm_num, by norm_num⟩⟩,
         ⟨"mid text", ⟨"http://b.example", "B", 1, 0⟩,
          ⟨7, 10, by norm_num, by norm_num⟩⟩] =
      format_context
        [⟨"mid text", ⟨"http://b.example", "B", 1, 0⟩,
          ⟨7, 10, by norm_num, by norm_num⟩⟩,
         ⟨"high text", ⟨"http://a.example", "A", 0, 0⟩,
          ⟨9, 10, by norm_num, by norm_num⟩⟩] :=
  c9_format_context_perm_invariant _ _ (by decide) (by decide) (by decide)

end WebRag
